import Mathlib

/-!
Formal model of the recommendation core of this repository: the function
`recommend_games(selected_game, data, top_n)` defined identically (up to
`.values[0]` versus `.iloc[0]`, which both read the first matching row) in
`src/app.py` (lines 10-31) and `src/streamlit_app.py` (lines 42-63).

Modelling choices, stated once here:

* A pandas `DataFrame` row of `recommend.csv` is a `Row` with the columns
  `game`, `votes_up_count`, `total_playtime`, plus the transient
  `similarity` column, which is `none` until `recommend_games` first
  writes it.  The catalog is the `List Row` of the frame's rows in order.
* The numeric columns are modelled as exact integers `ℤ` (the vote count
  is a count; the playtime and the derived cells are carried exactly,
  where the source holds float64 approximations).
* The source stores `np.sqrt(dv ** 2 + dp ** 2)` in the `similarity`
  column.  The model stores the radicand `dv ^ 2 + dp ^ 2` (exact in `ℤ`),
  and the distance the column holds is recovered as `Real.sqrt` of the
  stored value in the theorem statements.  `Real.sqrt` is strictly
  monotone on nonnegative reals, so comparisons and the induced sort
  order of distances coincide with those of the stored squares.
* The assignment `data['similarity'] = np.sqrt(...)` mutates the caller's
  frame in place.  The model makes this explicit: `recommend_games`
  returns the pair (returned recommendations, the caller's catalog after
  the call).
* `recommendations.sort_values(by='similarity')` sorts the rows by the
  `similarity` key.  pandas' default `kind='quicksort'` is documented as
  not stable; the model fixes Mathlib's stable `List.insertionSort` on
  the key order `simLe`.  Every property proved below about the sorted
  output except tie stability (sortedness, length, membership, row
  contents) holds for any algorithm that sorts by the key, so the choice
  of algorithm is immaterial to those theorems; tie stability itself is
  exactly the point where the model is finer than the source and is
  therefore not claimed from it.
* `.head(top_n)` is `List.take top_n`, with `top_n : Nat` (the
  documented domain is positive integers, plus the edge case 0).
-/

namespace GameRec

/-- A row of the `recommend.csv` catalog: the columns `game`,
`votes_up_count` and `total_playtime`, and the transient `similarity`
column, absent (`none`) before `recommend_games` first writes it. -/
structure Row where
  game : String
  votes_up_count : ℤ
  total_playtime : ℤ
  similarity : Option ℤ
deriving DecidableEq, Repr

/-- The value stored into the `similarity` column for a row `r`, given the
reference's feature values `sv` (`selected_votes`) and `sp`
(`selected_playtime`): the radicand of
`np.sqrt((data['votes_up_count'] - selected_votes) ** 2 +
(data['total_playtime'] - selected_playtime) ** 2)`
(`src/app.py` lines 21-24); the source stores its square root. -/
def simSq (sv sp : ℤ) (r : Row) : ℤ :=
  (r.votes_up_count - sv) ^ 2 + (r.total_playtime - sp) ^ 2

/-- Read a row's `similarity` cell (the rows fed to the sort always have it
set, so the default is never read there). -/
def simVal (r : Row) : ℤ :=
  r.similarity.getD 0

/-- Key order of `sort_values(by='similarity')`: compare rows by the
`similarity` cell. -/
def simLe (a b : Row) : Prop :=
  simVal a ≤ simVal b

instance : DecidableRel simLe :=
  fun a b => inferInstanceAs (Decidable (simVal a ≤ simVal b))

instance : IsTotal Row simLe :=
  ⟨fun a b => le_total (simVal a) (simVal b)⟩

instance : IsTrans Row simLe :=
  ⟨fun _ _ _ hab hbc => le_trans hab hbc⟩

/-- The columnwise assignment `data['similarity'] = np.sqrt(...)` acting on
one row: every other cell of the row is kept, `similarity` is overwritten
with the value computed from the reference row `ref`. -/
def applySim (ref r : Row) : Row :=
  { r with similarity := some (simSq ref.votes_up_count ref.total_playtime r) }

/-- The function `recommend_games(selected_game, data, top_n)` of
`src/app.py` lines 10-31 and `src/streamlit_app.py` lines 42-63.

* `data.filter (fun r => r.game == selected_game)` is
  `selected_game_data = data[data['game'] == selected_game]`; the empty
  case returns the empty frame, and the head `ref` of the nonempty case
  is row `.values[0]` / `.iloc[0]`, whose `votes_up_count` and
  `total_playtime` cells are `selected_votes` and `selected_playtime`.
* `data.map (applySim ref)` is the in-place column write
  `data['similarity'] = np.sqrt(...)` (with the square stored in place of
  its root, see the file comment).
* The filter on `!=`, the sort by `similarity` and `.take top_n` are
  `data[data['game'] != selected_game].sort_values(by='similarity').head(top_n)`.

The result is the pair (recommendations returned, the caller's `data`
after the call); the second component records the in-place mutation. -/
def recommend_games (selected_game : String) (data : List Row) (top_n : Nat) :
    List Row × List Row :=
  match data.filter (fun r => r.game == selected_game) with
  | [] => ([], data)
  | ref :: _ =>
    let data2 := data.map (applySim ref)
    let recommendations :=
      List.insertionSort simLe (data2.filter (fun r => r.game != selected_game))
    (recommendations.take top_n, data2)

/-- The persistent columns of a row: everything except the transient
`similarity` column. -/
def stripSim (r : Row) : String × ℤ × ℤ :=
  (r.game, r.votes_up_count, r.total_playtime)

/-- A two-row concrete catalog used to evaluate the model. -/
def sampleCat : List Row :=
  [⟨"A", 0, 0, none⟩, ⟨"B", 3, 4, none⟩]

/-- A concrete catalog with a duplicated reference name, used to evaluate
the first-match policy. -/
def dupCat : List Row :=
  [⟨"A", 10, 0, none⟩, ⟨"A", 999, 999, none⟩, ⟨"B", 13, 4, none⟩]

example :
    recommend_games "A" sampleCat 5 =
      ([⟨"B", 3, 4, some 25⟩],
       [⟨"A", 0, 0, some 0⟩, ⟨"B", 3, 4, some 25⟩]) := by decide

example :
    (recommend_games "A" dupCat 5).1 = [⟨"B", 13, 4, some 25⟩] := by decide

example : recommend_games "Z" sampleCat 5 = ([], sampleCat) := by decide

lemma applySim_game (ref r : Row) : (applySim ref r).game = r.game := rfl

lemma applySim_votes (ref r : Row) :
    (applySim ref r).votes_up_count = r.votes_up_count := rfl

lemma applySim_playtime (ref r : Row) :
    (applySim ref r).total_playtime = r.total_playtime := rfl

lemma applySim_similarity (ref r : Row) :
    (applySim ref r).similarity = some (simSq ref.votes_up_count ref.total_playtime r) := rfl

lemma stripSim_applySim (ref r : Row) : stripSim (applySim ref r) = stripSim r := rfl

/-- In the nonempty-filter branch, `recommend_games` computes the stated
normal form (with the filter over the rewritten rows commuted past the
`map`, which is possible because the column write keeps the `game` cell). -/
lemma recommend_games_found {g : String} {data : List Row} {ref : Row}
    {rest : List Row} (n : Nat)
    (h : data.filter (fun r => r.game == g) = ref :: rest) :
    recommend_games g data n =
      ((List.insertionSort simLe
          ((data.filter (fun r => r.game != g)).map (applySim ref))).take n,
        data.map (applySim ref)) := by
  have hcomm : (data.map (applySim ref)).filter (fun r => r.game != g) =
      (data.filter (fun r => r.game != g)).map (applySim ref) := by
    rw [List.filter_map]
    rfl
  unfold recommend_games
  rw [h]
  simp only [hcomm]

/-- In the empty-filter branch, `recommend_games` returns the empty frame
and leaves the catalog untouched. -/
lemma recommend_games_not_found {g : String} {data : List Row} (n : Nat)
    (h : data.filter (fun r => r.game == g) = []) :
    recommend_games g data n = ([], data) := by
  unfold recommend_games
  rw [h]

/-- The first row the `==` filter keeps is the row `find?` locates. -/
lemma filter_cons_of_findFirst {g : String} {data : List Row} {ref : Row}
    (href : data.find? (fun r => r.game == g) = some ref) :
    ∃ rest, data.filter (fun r => r.game == g) = ref :: rest := by
  have h1 : (data.filter (fun r => r.game == g)).head? = some ref := by
    rw [List.filter_head?]
    exact href
  cases hfil : data.filter (fun r => r.game == g) with
  | nil => rw [hfil] at h1; simp at h1
  | cons a t =>
    rw [hfil] at h1
    simp only [List.head?_cons, Option.some.injEq] at h1
    exact ⟨t, by rw [h1]⟩

/-- Rows of the returned recommendation frame come from the `!=` filter of
the rewritten catalog, and the reference row is the filter's first hit. -/
lemma mem_result {g : String} {data : List Row} {n : Nat} {r : Row}
    (h : r ∈ (recommend_games g data n).1) :
    ∃ ref rest, data.filter (fun x => x.game == g) = ref :: rest ∧
      r ∈ (data.filter (fun x => x.game != g)).map (applySim ref) := by
  cases hfil : data.filter (fun x => x.game == g) with
  | nil =>
    rw [recommend_games_not_found n hfil] at h
    simp at h
  | cons ref rest =>
    rw [recommend_games_found n hfil] at h
    exact ⟨ref, rest, rfl,
      (List.mem_insertionSort simLe).mp (List.take_subset n _ h)⟩

/-- C1 (counterexample): the claim "the catalog after the call equals the
catalog before the call" is false: on the two-row catalog `sampleCat` with
reference `"A"`, the call writes the `similarity` column of the caller's
catalog in place (`data['similarity'] = np.sqrt(...)`), so the catalog
after the call differs from the catalog before. -/
theorem recommend_games_mutation_cex :
    ¬ ((recommend_games "A" sampleCat 5).2 = sampleCat) := by decide

/-- C1 (amended): `recommend_games` mutates the caller's catalog at most in
the `similarity` column: after the call, every row's `game`,
`votes_up_count` and `total_playtime` cells and the row order are
unchanged. -/
theorem recommend_games_preserves_other_columns (g : String) (data : List Row)
    (n : Nat) :
    ((recommend_games g data n).2).map stripSim = data.map stripSim := by
  cases hfil : data.filter (fun r => r.game == g) with
  | nil => rw [recommend_games_not_found n hfil]
  | cons ref rest =>
    rw [recommend_games_found n hfil]
    rw [List.map_map]
    rfl

/-- C4: no row of the returned recommendations carries the reference name;
the `data['game'] != selected_game` filter removes the matched reference
row and every other row sharing its name. -/
theorem recommend_games_excludes_reference_name (g : String) (data : List Row)
    (n : Nat) :
    ∀ r ∈ (recommend_games g data n).1, r.game ≠ g := by
  intro r hr
  obtain ⟨ref, _, _, hmem⟩ := mem_result hr
  obtain ⟨o, ho, rfl⟩ := List.mem_map.mp hmem
  have hne : (o.game != g) = true := (List.mem_filter.mp ho).2
  simpa [applySim_game] using hne

/-- C4 (witness): on `sampleCat` with reference `"A"`, the returned row
named `"B"` indeed does not carry the reference name. -/
theorem recommend_games_excludes_reference_name_witness :
    (Row.mk "B" 3 4 (some 25)).game ≠ "A" :=
  recommend_games_excludes_reference_name "A" sampleCat 5
    (Row.mk "B" 3 4 (some 25)) (by decide)

/-- C5: when no catalog row carries the reference name (in particular on
the empty catalog), `recommend_games` returns the empty frame — and leaves
the catalog unchanged — instead of signalling an error; the model is a
total function, so no exception is possible. -/
theorem recommend_games_absent_reference (g : String) (data : List Row)
    (n : Nat) (h : ∀ r ∈ data, r.game ≠ g) :
    recommend_games g data n = ([], data) := by
  apply recommend_games_not_found
  rw [List.filter_eq_nil_iff]
  intro a ha
  simpa using h a ha

/-- C5 (witness): the absent reference name `"Z"` on the concrete catalog
`sampleCat` yields the empty result and an untouched catalog. -/
theorem recommend_games_absent_reference_witness :
    recommend_games "Z" sampleCat 5 = ([], sampleCat) :=
  recommend_games_absent_reference "Z" sampleCat 5 (by decide)

/-- C9: `top_n = 0` (below the documented positive domain) yields the
empty result without an error: `.head(0)` keeps no rows. -/
theorem recommend_games_top_n_zero (g : String) (data : List Row) :
    (recommend_games g data 0).1 = [] := by
  cases hfil : data.filter (fun r => r.game == g) with
  | nil => rw [recommend_games_not_found 0 hfil]
  | cons ref rest => rw [recommend_games_found 0 hfil]; rfl

/-- C3: in the catalog as it stands after the call, every row whose name
differs from the reference name records the distance
`sqrt((votes_up_count - selected_votes)^2 + (total_playtime - selected_playtime)^2)`,
where the feature values are read from the first row in catalog order
whose name equals the reference name (the `find?` hypothesis; `.values[0]`
/ `.iloc[0]` in the source).  The stored cell is the radicand; the
distance the column represents is its square root. -/
theorem recommend_games_distance_formula (g : String) (data : List Row)
    (n : Nat) (ref : Row)
    (href : data.find? (fun r => r.game == g) = some ref) :
    ∀ r ∈ (recommend_games g data n).2, r.game ≠ g →
      Real.sqrt (simVal r) =
        Real.sqrt (((r.votes_up_count : ℝ) - (ref.votes_up_count : ℝ)) ^ 2 +
          ((r.total_playtime : ℝ) - (ref.total_playtime : ℝ)) ^ 2) := by
  obtain ⟨rest, hfil⟩ := filter_cons_of_findFirst href
  intro r hr _
  rw [recommend_games_found n hfil] at hr
  obtain ⟨o, _, rfl⟩ := List.mem_map.mp hr
  simp only [simVal, applySim_similarity, Option.getD_some, applySim_votes,
    applySim_playtime]
  congr 1
  push_cast [simSq]
  ring

/-- C3 (witness): on the catalog `dupCat`, whose first two rows both carry
the reference name `"A"`, the row named `"B"` records the distance to the
first `"A"` row (feature values 10 and 0), not to the second. -/
theorem recommend_games_distance_formula_witness :
    Real.sqrt (simVal (Row.mk "B" 13 4 (some 25))) =
      Real.sqrt ((((Row.mk "B" 13 4 (some 25)).votes_up_count : ℝ) -
            ((Row.mk "A" 10 0 none).votes_up_count : ℝ)) ^ 2 +
          (((Row.mk "B" 13 4 (some 25)).total_playtime : ℝ) -
            ((Row.mk "A" 10 0 none).total_playtime : ℝ)) ^ 2) :=
  recommend_games_distance_formula "A" dupCat 5 (Row.mk "A" 10 0 none)
    (by decide) (Row.mk "B" 13 4 (some 25)) (by decide) (by decide)

/-- C6: the returned recommendations are sorted in non-decreasing order of
distance: along the result, the distances `sqrt(similarity cell)` are
pairwise non-decreasing (in particular for every adjacent pair).  The
radicands are sorted by `sort_values`, and the square root is monotone. -/
theorem recommend_games_sorted_by_distance (g : String) (data : List Row)
    (n : Nat) :
    List.Sorted (fun a b : Row => Real.sqrt (simVal a) ≤ Real.sqrt (simVal b))
      (recommend_games g data n).1 := by
  cases hfil : data.filter (fun r => r.game == g) with
  | nil =>
    rw [recommend_games_not_found n hfil]
    exact List.sorted_nil
  | cons ref rest =>
    rw [recommend_games_found n hfil]
    have h1 : List.Sorted simLe
        (List.insertionSort simLe
          ((data.filter (fun r => r.game != g)).map (applySim ref))) :=
      List.sorted_insertionSort simLe _
    have h2 : List.Sorted simLe
        ((List.insertionSort simLe
          ((data.filter (fun r => r.game != g)).map (applySim ref))).take n) :=
      List.Pairwise.sublist (List.take_sublist n _) h1
    exact h2.imp fun hab => Real.sqrt_le_sqrt (by exact_mod_cast hab)

/-- C7: the result never holds more rows than `min top_n (number of
eligible rows)` (the rows whose name differs from the reference name);
and whenever the reference name occurs in the catalog and `top_n` is at
least the number of eligible rows, the result consists of exactly the
eligible rows (compared on their persistent columns, since the call fills
their `similarity` cells) — no padding, no error. -/
theorem recommend_games_result_length (g : String) (data : List Row)
    (n : Nat) :
    (recommend_games g data n).1.length ≤
        min n (data.filter (fun r => r.game != g)).length ∧
      (data.filter (fun r => r.game == g) ≠ [] →
        (data.filter (fun r => r.game != g)).length ≤ n →
          ((recommend_games g data n).1.map stripSim).Perm
            ((data.filter (fun r => r.game != g)).map stripSim)) := by
  cases hfil : data.filter (fun r => r.game == g) with
  | nil =>
    rw [recommend_games_not_found n hfil]
    exact ⟨by simp, fun hne => absurd rfl hne⟩
  | cons ref rest =>
    rw [recommend_games_found n hfil]
    constructor
    · simp [List.length_take, List.length_insertionSort]
    · intro _ hlen
      rw [List.take_of_length_le
        (by simpa [List.length_insertionSort] using hlen)]
      calc ((List.insertionSort simLe
              ((data.filter (fun r => r.game != g)).map (applySim ref))).map
                stripSim).Perm
            (((data.filter (fun r => r.game != g)).map (applySim ref)).map
              stripSim) :=
          (List.perm_insertionSort simLe _).map stripSim
        _ = (data.filter (fun r => r.game != g)).map stripSim := by
          rw [List.map_map]; rfl

/-- C7 (witness): on `sampleCat` with reference `"A"` and `top_n = 5`
exceeding the single eligible row, the result is exactly the eligible
rows. -/
theorem recommend_games_result_length_witness :
    ((recommend_games "A" sampleCat 5).1.map stripSim).Perm
      ((sampleCat.filter (fun r => r.game != "A")).map stripSim) :=
  (recommend_games_result_length "A" sampleCat 5).2 (by decide) (by decide)

/-- C8: `recommend_games` is deterministic — it contains no randomness, so
a second call with the identical arguments returns the identical pair (in
the model this is definitional).  The substantive reading over the shared
mutable DataFrame is proved here: repeating the call on the catalog the
first call left behind (the same `data` object the caller still holds)
gives the identical recommendations, in content and order, and the
identical catalog. -/
theorem recommend_games_deterministic (g : String) (data : List Row)
    (n : Nat) :
    recommend_games g ((recommend_games g data n).2) n =
      recommend_games g data n := by
  cases hfil : data.filter (fun r => r.game == g) with
  | nil =>
    rw [recommend_games_not_found n hfil, recommend_games_not_found n hfil]
  | cons ref rest =>
    rw [recommend_games_found n hfil]
    have hcollapse : applySim (applySim ref ref) ∘ applySim ref = applySim ref :=
      funext fun _ => rfl
    have hfil2 : (data.map (applySim ref)).filter (fun r => r.game == g) =
        applySim ref ref :: rest.map (applySim ref) := by
      rw [List.filter_map]
      have hp : ((fun r : Row => r.game == g) ∘ applySim ref) =
          (fun r : Row => r.game == g) := rfl
      rw [hp, hfil]
      rfl
    rw [recommend_games_found n hfil2]
    have hfilne : (data.map (applySim ref)).filter (fun r => r.game != g) =
        (data.filter (fun r => r.game != g)).map (applySim ref) := by
      rw [List.filter_map]
      rfl
    rw [hfilne, List.map_map, List.map_map, hcollapse]

/-- C10: every returned recommendation is one of the caller's catalog rows
with its `game`, `votes_up_count` and `total_playtime` cells unmodified,
extended with exactly its `similarity` cell, set to the value computed
against the first catalog row carrying the reference name. -/
theorem recommend_games_rows_from_catalog (g : String) (data : List Row)
    (n : Nat) (ref : Row)
    (href : data.find? (fun r => r.game == g) = some ref) :
    ∀ r ∈ (recommend_games g data n).1, ∃ o ∈ data,
      r = { o with
            similarity := some (simSq ref.votes_up_count ref.total_playtime o) } := by
  obtain ⟨rest, hfil⟩ := filter_cons_of_findFirst href
  intro r hr
  obtain ⟨ref2, rest2, hfil2, hmem⟩ := mem_result hr
  rw [hfil] at hfil2
  obtain ⟨o, ho, rfl⟩ := List.mem_map.mp hmem
  refine ⟨o, List.mem_of_mem_filter ho, ?_⟩
  injection hfil2 with h1 _
  subst h1
  rfl

/-- C10 (witness): the row returned on `sampleCat` for reference `"A"` is
the catalog's `"B"` row with only its `similarity` cell filled in. -/
theorem recommend_games_rows_from_catalog_witness :
    ∃ o ∈ sampleCat, Row.mk "B" 3 4 (some 25) =
      { o with
        similarity := some (simSq (Row.mk "A" 0 0 none).votes_up_count
                              (Row.mk "A" 0 0 none).total_playtime o) } :=
  recommend_games_rows_from_catalog "A" sampleCat 5 (Row.mk "A" 0 0 none)
    (by decide) (Row.mk "B" 3 4 (some 25)) (by decide)

end GameRec
